import Mathlib

/-!
Verification of the Spanish-language ACE-Step wrapper (`poc_espanol`).

The development shallowly embeds `poc_espanol/generador_musica.py`:
pure helpers over `List Char` model the Python string operations used by
the module, dataclasses become structures, and the stateful generator
façade becomes an explicit state-passing function parameterised by an
environment describing the behaviour of the external pipeline, of
pipeline initialisation, and of directory creation.
-/

namespace PocEspanol

/-- ASCII whitespace recognised by the Python `str.strip` method. -/
def esEspacio (c : Char) : Bool :=
  c = ' ' || c = '\t' || c = '\n' || c = '\r' || c = '\x0b' || c = '\x0c'

/-- Model of Python `str.strip()` on the character list of a string. -/
def pyStrip (l : List Char) : List Char :=
  ((l.dropWhile esEspacio).reverse.dropWhile esEspacio).reverse

/-- Model of Python `str.split("\n")`: split into lines at newline characters. -/
def splitNl : List Char → List (List Char)
  | [] => [[]]
  | c :: rest =>
    if c = '\n' then [] :: splitNl rest
    else
      match splitNl rest with
      | [] => [[c]]
      | l :: ls => (c :: l) :: ls

/-- Model of the Python substring test `needle in hay`. -/
def contieneSub (needle : List Char) : List Char → Bool
  | [] => needle.isEmpty
  | c :: rest => needle.isPrefixOf (c :: rest) || contieneSub needle (rest)

/-- Positions at which `needle` occurs in `hay`. -/
def posicionesSub (needle hay : List Char) : List Nat :=
  (List.range hay.length).filter (fun i => needle.isPrefixOf (hay.drop i))

/-- Number of occurrence positions of `needle` in `hay`. -/
def cuentaSub (needle hay : List Char) : Nat :=
  (posicionesSub needle hay).length

/-- Model of Python `", ".join` / `"\n\n".join` over a list of strings. -/
def joinSep (sep : String) : List String → String
  | [] => ""
  | [s] => s
  | s :: rest => s ++ sep ++ joinSep sep rest

/-- The apostrophe character, used by the invalid-genre message. -/
def apostrofe : String := (Char.ofNat 39).toString

/-- Genre catalog `GENEROS_ESPANOL`, in source (insertion) order. -/
def GENEROS_ESPANOL : List (String × String) :=
  [ ("pop_latino", "pop, latin pop, tropical, catchy, upbeat, spanish"),
    ("reggaeton", "reggaeton, urban latin, dembow, perreo, trap latino"),
    ("balada", "ballad, romantic, slow, emotional, acoustic guitar, piano"),
    ("rock_espanol", "rock en español, rock latino, guitar, drums, energetic"),
    ("cumbia", "cumbia, tropical, accordion, dance, festive, colombian"),
    ("salsa", "salsa, tropical, brass, piano, percussion, dance"),
    ("bachata", "bachata, romantic, guitar, dominican, sensual"),
    ("flamenco", "flamenco, spanish guitar, passionate, rhythmic, andalusian"),
    ("mariachi", "mariachi, mexican, trumpet, violin, traditional"),
    ("tango", "tango, argentine, bandoneon, dramatic, passionate"),
    ("urbano", "urban, trap, hip hop latino, 808, autotune"),
    ("folclore", "folk, acoustic, traditional, spanish, guitar") ]

/-- The keys of the genre catalog, in order. -/
def generosClaves : List String := GENEROS_ESPANOL.map Prod.fst

/-- The lyric template `PLANTILLAS_LETRAS["amor"]`. -/
def plantillaAmor : String :=
  "[verse]\nCada vez que te veo pasar\nMi corazón empieza a latir\nNo puedo dejar de pensar\nEn todo lo que quiero decir\n\n[chorus]\nPorque tú eres mi luz\nMi camino y mi razón\nContigo todo es mejor\nEres dueña de mi corazón\n\n[verse]\nLas noches son más largas sin ti\nLos días pierden su color\nPero cuando estás aquí\nTodo brilla con tu amor\n\n[chorus]\nPorque tú eres mi luz\nMi camino y mi razón\nContigo todo es mejor\nEres dueña de mi corazón"

/-- Configuration dataclass `ConfiguracionGeneracion`, with the source defaults. -/
structure ConfiguracionGeneracion where
  duracion_segundos : ℚ := 60
  formato_salida : String := "wav"
  pasos_inferencia : ℤ := 60
  escala_guia : ℚ := 15
  tipo_scheduler : String := "euler"
  tipo_cfg : String := "apg"
  escala_omega : ℚ := 10
  intervalo_guia : ℚ := 1/2
  decaimiento_guia : ℚ := 0
  escala_guia_minima : ℚ := 3
  usar_erg_tag : Bool := true
  usar_erg_letra : Bool := true
  usar_erg_difusion : Bool := true
  semillas : Option (List ℤ) := none
  directorio_salida : String := "./salidas_espanol"
  ruta_checkpoint : Option String := none
  id_dispositivo : ℤ := 0
  usar_bf16 : Bool := true
  usar_cpu_offload : Bool := false
  usar_torch_compile : Bool := false
deriving Repr, DecidableEq

/-- An auxiliary parameter mapping as returned by the external pipeline: the
two keys the wrapper reads, plus an abstract remainder of other entries. -/
structure Diccionario where
  timecosts : Option (List (String × ℚ)) := none
  actual_seeds : Option (List ℤ) := none
  otros : List (String × String) := []
deriving Repr, DecidableEq

/-- Result dataclass `ResultadoGeneracion`. -/
structure ResultadoGeneracion where
  exitoso : Bool
  ruta_audio : Option String := none
  mensaje : String := ""
  parametros : Diccionario := {}
  tiempos : List (String × ℚ) := []
  semillas_usadas : List ℤ := []
deriving Repr, DecidableEq

/-- The three error messages of `validar_letra`, and the remaining literal
messages produced by the façade. -/
def msgVacia : String := "La letra no puede estar vacía"

/-- Error message for a lyric with no section marker. -/
def msgSeccion : String := "La letra debe contener al menos una sección ([verse], [chorus], etc.)"

/-- Error message for a lyric with fewer than 4 content lines. -/
def msgLineas : String := "La letra debe contener al menos 4 líneas de texto"

/-- Failure message for an out-of-range duration. -/
def mensajeDuracion : String := "La duración debe estar entre 10 y 240 segundos"

/-- Failure message when pipeline initialisation fails. -/
def mensajeInitFalla : String :=
  "No se pudo inicializar el modelo. Verifica que tienes suficiente memoria GPU."

/-- Message attached to a successful generation. -/
def mensajeExito : String := "Generación completada exitosamente"

/-- Failure message for a malformed pipeline response. -/
def mensajeRespuestaInvalida : String := "El modelo no retornó un resultado válido"

/-- Failure message for an invalid genre, naming it and listing the valid keys. -/
def mensajeGeneroInvalido (genero : String) : String :=
  "Género " ++ apostrofe ++ genero ++ apostrofe ++ " no válido. Géneros disponibles: "
    ++ joinSep ", " generosClaves

/-- The five recognised section markers. -/
def seccionesValidas : List String :=
  ["[verse]", "[chorus]", "[bridge]", "[intro]", "[outro]"]

/-- Predicate on a stripped line: kept by the content-line filter of
`validar_letra` (non-empty and not starting with a bracket). -/
def lineaDeContenido (l : List Char) : Bool :=
  !l.isEmpty && !(l.headD ' ' == '[')

/-- Model of `GeneradorMusicaEspanol.validar_letra`. -/
def validar_letra (letra : String) : Bool × String :=
  if letra.data.isEmpty || (pyStrip letra.data).isEmpty then
    (false, msgVacia)
  else if !(seccionesValidas.any fun s => contieneSub s.data (letra.data.map Char.toLower)) then
    (false, msgSeccion)
  else if (((splitNl letra.data).map pyStrip).filter lineaDeContenido).length < 4 then
    (false, msgLineas)
  else
    (true, "")

/-- Elements of the sequence returned by the external pipeline: a string, a
mapping, or some other value. -/
inductive ElemPy where
  | cadena (s : String)
  | diccionario (d : Diccionario)
  | otro (etiqueta : Nat)
deriving Repr, DecidableEq

/-- A value returned by the external pipeline call: a Python list, or a value
of some other type. -/
inductive RespuestaPipeline where
  | lista (elems : List ElemPy)
  | noLista (etiqueta : Nat)
deriving Repr, DecidableEq

deriving instance DecidableEq for Except

/-- One behaviour of the effectful environment of a single `generar_cancion`
call: what pipeline construction does, what `os.makedirs` does, and what the
pipeline call does.  `Except.error` models a raised exception carrying its
textual description. -/
structure Entorno where
  initPipeline : Except String Nat
  makedirs : Except String Unit
  llamadaPipeline : Except String RespuestaPipeline
deriving Repr, DecidableEq

/-- Observable side effects of a `generar_cancion` call, in order. -/
inductive Efecto where
  | intentoInit
  | makedirs (dir : String)
  | invocarPipeline (handle : Option Nat) (prompt : String)
      (manual_seeds : Option (List ℤ)) (save_path : String)
deriving Repr, DecidableEq

/-- State of the `GeneradorMusicaEspanol` façade: its configuration, the
lazily created pipeline handle, and the initialised flag. -/
structure GeneradorMusicaEspanol where
  config : ConfiguracionGeneracion
  pipeline : Option Nat := none
  inicializado : Bool := false
deriving Repr, DecidableEq

/-- Model of `GeneradorMusicaEspanol._inicializar_pipeline`: returns the
boolean result, the updated façade state, and the recorded effects. -/
def inicializar_pipeline (g : GeneradorMusicaEspanol) (env : Entorno) :
    Bool × GeneradorMusicaEspanol × List Efecto :=
  if g.inicializado then
    (true, g, [])
  else
    match env.initPipeline with
    | .ok h => (true, { g with pipeline := some h, inicializado := true }, [.intentoInit])
    | .error _ => (false, g, [.intentoInit])

/-- Model of `os.path.join` for the two-argument uses in the module. -/
def osPathJoin (dir file : String) : String :=
  if dir.data.isEmpty then file
  else if dir.data.getLast? = some '/' then dir ++ file
  else dir ++ "/" ++ file

/-- The save path handed to the pipeline: directory plus
`nombre.formato` when a non-empty file name was given, else the directory. -/
def rutaSalidaDe (cfg : ConfiguracionGeneracion) (nombre_archivo : Option String) : String :=
  match nombre_archivo with
  | some n =>
    if n.data.isEmpty then cfg.directorio_salida
    else osPathJoin cfg.directorio_salida (n ++ "." ++ cfg.formato_salida)
  | none => cfg.directorio_salida

/-- Model of `[semilla] if semilla else self.config.semillas` (Python
truthiness: `None` and `0` both fall through to the seed list of the config). -/
def resolverSemillas (semilla : Option ℤ) (cfgSemillas : Option (List ℤ)) :
    Option (List ℤ) :=
  match semilla with
  | some s => if s = 0 then cfgSemillas else some [s]
  | none => cfgSemillas

/-- The parameter bag extracted from a non-empty pipeline response list: the
last element when it is a mapping, else an empty mapping. -/
def paramsDeRespuesta (x : ElemPy) (xs : List ElemPy) : Diccionario :=
  match xs.getLastD x with
  | .diccionario d => d
  | _ => {}

/-- The audio path extracted from the first element of the response list:
the element itself when it is a string, else absent. -/
def rutaAudioDe (x : ElemPy) : Option String :=
  match x with
  | .cadena s => some s
  | _ => none

/-- The effects recorded by the time `generar_cancion` has invoked the
pipeline: initialisation effects, the directory creation, and the pipeline
invocation with the assembled request. -/
def efectosDeLlamada (g1 : GeneradorMusicaEspanol) (efInit : List Efecto) (genero : String)
    (semilla : Option ℤ) (nombre_archivo : Option String) : List Efecto :=
  efInit ++
    [.makedirs g1.config.directorio_salida,
     .invocarPipeline g1.pipeline ((List.lookup genero GENEROS_ESPANOL).getD "")
       (resolverSemillas semilla g1.config.semillas) (rutaSalidaDe g1.config nombre_archivo)]

/-- Outcome of one `generar_cancion` call: the returned value (`Except.error`
models an exception escaping to the caller), the façade state afterwards, and
the side effects performed. -/
structure Salida where
  resultado : Except String ResultadoGeneracion
  estado : GeneradorMusicaEspanol
  efectos : List Efecto
deriving Repr, DecidableEq

/-- Model of `GeneradorMusicaEspanol.generar_cancion`. -/
def generar_cancion (g : GeneradorMusicaEspanol) (genero : String)
    (letraOpc : Option String) (duracion : ℚ) (semilla : Option ℤ)
    (nombre_archivo : Option String) (env : Entorno) : Salida :=
  if generosClaves.contains genero = false then
    { resultado := .ok { exitoso := false, mensaje := mensajeGeneroInvalido genero },
      estado := g, efectos := [] }
  else
    match validar_letra (letraOpc.getD plantillaAmor) with
    | (false, error) =>
      { resultado := .ok { exitoso := false, mensaje := "Error en la letra: " ++ error },
        estado := g, efectos := [] }
    | (true, _) =>
      if duracion < 10 ∨ duracion > 240 then
        { resultado := .ok { exitoso := false, mensaje := mensajeDuracion },
          estado := g, efectos := [] }
      else
        match inicializar_pipeline g env with
        | (false, g1, efInit) =>
          { resultado := .ok { exitoso := false, mensaje := mensajeInitFalla },
            estado := g1, efectos := efInit }
        | (true, g1, efInit) =>
          match env.makedirs with
          | .error e =>
            { resultado := .error e, estado := g1,
              efectos := efInit ++ [.makedirs g1.config.directorio_salida] }
          | .ok _ =>
            match env.llamadaPipeline with
            | .error e =>
              { resultado := .ok { exitoso := false,
                                   mensaje := "Error durante la generación: " ++ e },
                estado := g1, efectos := efectosDeLlamada g1 efInit genero semilla nombre_archivo }
            | .ok (.lista (x :: xs)) =>
              { resultado := .ok { exitoso := true,
                                   ruta_audio := rutaAudioDe x,
                                   mensaje := mensajeExito,
                                   parametros := paramsDeRespuesta x xs,
                                   tiempos := (paramsDeRespuesta x xs).timecosts.getD [],
                                   semillas_usadas := (paramsDeRespuesta x xs).actual_seeds.getD [] },
                estado := g1, efectos := efectosDeLlamada g1 efInit genero semilla nombre_archivo }
            | .ok _ =>
              { resultado := .ok { exitoso := false, mensaje := mensajeRespuestaInvalida },
                estado := g1, efectos := efectosDeLlamada g1 efInit genero semilla nombre_archivo }

/-- Model of `GeneradorMusicaEspanol.generar_demo`: a fresh façade with the
demo configuration, sharing the pipeline handle and the initialised flag. -/
def generar_demo (g : GeneradorMusicaEspanol) (genero : String) (env : Entorno) : Salida :=
  let config_demo : ConfiguracionGeneracion :=
    { duracion_segundos := 30, pasos_inferencia := 27, escala_guia := 12 }
  let generador_demo : GeneradorMusicaEspanol :=
    { config := config_demo, pipeline := g.pipeline, inicializado := g.inicializado }
  generar_cancion generador_demo genero none 30 none (some ("demo_" ++ genero)) env

/-- Model of `crear_letra_personalizada`: the verse loop, with the chorus
after the first verse only. -/
def partesVersos (coro : String) : Nat → List String → List String
  | _, [] => []
  | i, v :: rest =>
    if i = 0 then
      ("[verse]\n" ++ v) :: ("[chorus]\n" ++ coro) :: partesVersos coro (i + 1) rest
    else
      ("[verse]\n" ++ v) :: partesVersos coro (i + 1) rest

/-- Model of `crear_letra_personalizada` (a falsy — absent or empty — bridge
adds no bridge block, matching `if bridge:`). -/
def crear_letra_personalizada (versos : List String) (coro : String)
    (bridge : Option String := none) : String :=
  let partes := partesVersos coro 0 versos ++
    (match bridge with
     | some b => if b.data.isEmpty then [] else ["[bridge]\n" ++ b, "[chorus]\n" ++ coro]
     | none => [])
  joinSep "\n\n" partes

/-- Restatement of the lyric validator following the words of the
specification (claim C5): fail on an empty or whitespace-only text, else fail
when none of the five markers occurs case-insensitively, else fail when —
after dropping the lines that are blank or whose stripped form starts with a
bracket — fewer than 4 lines remain, else succeed. -/
def validarLetraSegunSpec (letra : String) : Bool × String :=
  if letra.data.all esEspacio then
    (false, msgVacia)
  else if seccionesValidas.all
      (fun m => !(contieneSub m.data (letra.data.map Char.toLower))) then
    (false, msgSeccion)
  else if ((splitNl letra.data).filter (fun l => lineaDeContenido (pyStrip l))).length < 4 then
    (false, msgLineas)
  else
    (true, "")

theorem pyStrip_eq_nil_iff (l : List Char) :
    pyStrip l = [] ↔ ∀ x ∈ l, esEspacio x := by
  unfold pyStrip
  rw [List.reverse_eq_nil_iff, List.dropWhile_eq_nil_iff]
  constructor
  · intro h x hx
    have hsplit := List.takeWhile_append_dropWhile (p := esEspacio) (l := l)
    rw [← hsplit] at hx
    rcases List.mem_append.mp hx with hx | hx
    · exact List.mem_takeWhile_imp hx
    · exact h x (List.mem_reverse.mpr hx)
  · intro h x hx
    exact h x ((List.dropWhile_sublist esEspacio).subset (List.mem_reverse.mp hx))

theorem pyStrip_isEmpty_eq (l : List Char) :
    (pyStrip l).isEmpty = l.all esEspacio := by
  rcases h : (pyStrip l).isEmpty with _ | _
  · rcases hall : l.all esEspacio with _ | _
    · rfl
    · exfalso
      rw [List.isEmpty_eq_false] at h
      exact h ((pyStrip_eq_nil_iff l).mpr (by simpa [List.all_eq_true] using hall))
  · rw [List.isEmpty_iff] at h
    exact ((List.all_eq_true).mpr ((pyStrip_eq_nil_iff l).mp h)).symm

theorem vacio_eq_todoEspacio (l : List Char) :
    (l.isEmpty || (pyStrip l).isEmpty) = l.all esEspacio := by
  cases l with
  | nil => rfl
  | cons c t => simp [pyStrip_isEmpty_eq]

theorem not_any_eq_all_not {α : Type} (l : List α) (f : α → Bool) :
    (!l.any f) = l.all (fun x => !f x) := by
  induction l with
  | nil => rfl
  | cons a t ih => simp [List.any_cons, List.all_cons, ih]

theorem length_filter_map_strip (ls : List (List Char)) :
    ((ls.map pyStrip).filter lineaDeContenido).length
      = (ls.filter (fun l => lineaDeContenido (pyStrip l))).length := by
  rw [List.filter_map, List.length_map]
  rfl

/-- C4 counterexample: the default output directory stored by a
zero-argument `ConfiguracionGeneracion` is the literal `./salidas_espanol`,
which differs from the `./output_spanish` stated by the claim. -/
theorem C4_directorio_contraejemplo :
    ({} : ConfiguracionGeneracion).directorio_salida = "./salidas_espanol"
      ∧ ({} : ConfiguracionGeneracion).directorio_salida ≠ "./output_spanish" := by
  exact ⟨rfl, by decide⟩

/-- C4 (amended): the zero-argument construction of the configuration always
succeeds and yields exactly the literal defaults of the source: duration 60,
format wav, 60 steps, guidance 15, euler scheduler, apg CFG, omega 10,
interval 1/2, decay 0, minimum guidance 3, the three ERG flags true, no
seeds, output directory `./salidas_espanol`, no checkpoint path, device 0,
reduced precision on, CPU offload off, compiled execution off. -/
theorem C4_valores_por_defecto :
    ({} : ConfiguracionGeneracion) =
      ⟨60, "wav", 60, 15, "euler", "apg", 10, 1/2, 0, 3, true, true, true,
       none, "./salidas_espanol", none, 0, true, false, false⟩ := rfl

/-- C5: for every string, `validar_letra` behaves exactly as the claimed
three-stage description (empty check, section-marker check, content-line
count check), and its three error messages mention emptiness, sections and
line count respectively. -/
theorem C5_validar_letra_segun_spec (letra : String) :
    validar_letra letra = validarLetraSegunSpec letra
      ∧ contieneSub "vacía".data msgVacia.data = true
      ∧ contieneSub "sección".data msgSeccion.data = true
      ∧ contieneSub "líneas".data msgLineas.data = true := by
  refine ⟨?_, by decide, by decide, by decide⟩
  unfold validar_letra validarLetraSegunSpec
  rw [vacio_eq_todoEspacio, not_any_eq_all_not, length_filter_map_strip]

/-- The verse blocks produced after the first verse: one `[verse]` block per
verse, in order, with no interleaved chorus. -/
theorem partesVersos_suc (coro : String) (rest : List String) (i : Nat) :
    partesVersos coro (i + 1) rest = rest.map (fun w => "[verse]\n" ++ w) := by
  induction rest generalizing i with
  | nil => rfl
  | cons a t ih => simp [partesVersos, ih]

/-- The block list the spec describes for a non-empty verse list: the first
verse, the chorus, then the remaining verses. -/
def bloquesSegunSpec (v : String) (vs : List String) (coro : String) : List String :=
  ("[verse]\n" ++ v) :: ("[chorus]\n" ++ coro) :: vs.map (fun w => "[verse]\n" ++ w)

/-- C8: for every non-empty verse list, `crear_letra_personalizada` joins with
blank lines one `[verse]` block per verse in order with a `[chorus]` block
immediately after the first verse only, appending — for a supplied non-empty
bridge — a `[bridge]` block and one more `[chorus]` block; on the specified
round-trip inputs the output has exactly one `[chorus]` marker without a
bridge, and with a bridge exactly two `[chorus]` markers and one `[bridge]`
marker, the bridge block sitting between the two chorus blocks. -/
theorem C8_crear_letra_personalizada (v : String) (vs : List String) (coro b : String) :
    crear_letra_personalizada (v :: vs) coro none = joinSep "\n\n" (bloquesSegunSpec v vs coro)
    ∧ crear_letra_personalizada (v :: vs) coro (some b) =
        joinSep "\n\n" (bloquesSegunSpec v vs coro ++
          (if b.data.isEmpty then [] else ["[bridge]\n" ++ b, "[chorus]\n" ++ coro]))
    ∧ crear_letra_personalizada ["v1"] "c1" = "[verse]\nv1\n\n[chorus]\nc1"
    ∧ cuentaSub "[chorus]".data (crear_letra_personalizada ["v1"] "c1").data = 1
    ∧ crear_letra_personalizada ["v1"] "c1" (some "b1")
        = "[verse]\nv1\n\n[chorus]\nc1\n\n[bridge]\nb1\n\n[chorus]\nc1"
    ∧ cuentaSub "[chorus]".data (crear_letra_personalizada ["v1"] "c1" (some "b1")).data = 2
    ∧ cuentaSub "[bridge]".data (crear_letra_personalizada ["v1"] "c1" (some "b1")).data = 1
    ∧ posicionesSub "[chorus]".data (crear_letra_personalizada ["v1"] "c1" (some "b1")).data
        = [12, 38]
    ∧ posicionesSub "[bridge]".data (crear_letra_personalizada ["v1"] "c1" (some "b1")).data
        = [25]
    ∧ 12 < 25 ∧ 25 < 38 := by
  have hsuc : partesVersos coro 1 vs = vs.map (fun w => "[verse]\n" ++ w) :=
    partesVersos_suc coro vs 0
  refine ⟨?_, ?_, by decide, by decide, by decide, by decide, by decide, by decide, by decide,
    by decide, by decide⟩
  · show joinSep "\n\n"
        ((("[verse]\n" ++ v) :: ("[chorus]\n" ++ coro) :: partesVersos coro 1 vs) ++ []) = _
    rw [List.append_nil, hsuc]
    rfl
  · show joinSep "\n\n"
        ((("[verse]\n" ++ v) :: ("[chorus]\n" ++ coro) :: partesVersos coro 1 vs) ++
          (if b.data.isEmpty then [] else ["[bridge]\n" ++ b, "[chorus]\n" ++ coro])) = _
    rw [hsuc]
    rfl

/-- In the ready state, initialisation is a no-op: it returns success, leaves
the façade untouched, and performs no initialisation attempt, whatever the
environment would do. -/
theorem inicializar_listo (g : GeneradorMusicaEspanol) (env : Entorno)
    (h : g.inicializado = true) : inicializar_pipeline g env = (true, g, []) := by
  simp [inicializar_pipeline, h]

/-- In the uninitialised state, a raising constructor yields `false` and
leaves the façade unchanged, recording the attempt. -/
theorem inicializar_falla (g : GeneradorMusicaEspanol) (env : Entorno)
    (h : g.inicializado = false) (e : String) (he : env.initPipeline = .error e) :
    inicializar_pipeline g env = (false, g, [.intentoInit]) := by
  simp [inicializar_pipeline, h, he]

/-- In the uninitialised state, a successful constructor stores the handle
and sets the flag. -/
theorem inicializar_exito (g : GeneradorMusicaEspanol) (env : Entorno)
    (h : g.inicializado = false) (hdl : Nat) (he : env.initPipeline = .ok hdl) :
    inicializar_pipeline g env =
      (true, { g with pipeline := some hdl, inicializado := true }, [.intentoInit]) := by
  simp [inicializar_pipeline, h, he]

/-- Initialisation records at most the single attempt effect. -/
theorem inicializar_efectos (g : GeneradorMusicaEspanol) (env : Entorno) :
    (inicializar_pipeline g env).2.2 = []
      ∨ (inicializar_pipeline g env).2.2 = [.intentoInit] := by
  unfold inicializar_pipeline
  split
  · exact Or.inl rfl
  · split <;> exact Or.inr rfl

/-- Initialisation never changes the stored configuration. -/
theorem inicializar_config (g : GeneradorMusicaEspanol) (env : Entorno) :
    (inicializar_pipeline g env).2.1.config = g.config := by
  unfold inicializar_pipeline
  split
  · rfl
  · split <;> rfl

/-- A default-configured façade, as built by `GeneradorMusicaEspanol()`. -/
def gPorDefecto : GeneradorMusicaEspanol := { config := {} }

/-- An environment in which every external operation succeeds. -/
def entornoListo : Entorno :=
  { initPipeline := .ok 7, makedirs := .ok (),
    llamadaPipeline := .ok (.lista [.cadena "./salidas_espanol/cancion.wav", .diccionario {}]) }

/-- A short lyric accepted by `validar_letra`. -/
def letraValida : String := "[verse]\nuno\ndos\ntres\ncuatro"

/-- C7: for every genre id outside the catalog, `generar_cancion` returns
immediately with a failed result whose message quotes the genre, says it is
not valid and lists the 12 catalog keys; the state is unchanged and no
effect (no lyric work, no initialisation, no file-system access, no pipeline
call) has been performed. -/
theorem C7_genero_invalido (g : GeneradorMusicaEspanol) (genero : String)
    (letraOpc : Option String) (d : ℚ) (sem : Option ℤ) (nom : Option String)
    (env : Entorno) (h : generosClaves.contains genero = false) :
    generar_cancion g genero letraOpc d sem nom env =
      { resultado := .ok { exitoso := false, mensaje := mensajeGeneroInvalido genero },
        estado := g, efectos := [] }
    ∧ mensajeGeneroInvalido genero =
        "Género " ++ apostrofe ++ genero ++ apostrofe
          ++ " no válido. Géneros disponibles: " ++ joinSep ", " generosClaves
    ∧ generosClaves.length = 12
    ∧ joinSep ", " generosClaves =
        "pop_latino, reggaeton, balada, rock_espanol, cumbia, salsa, bachata, flamenco, mariachi, tango, urbano, folclore" := by
  refine ⟨?_, rfl, by decide, by decide⟩
  unfold generar_cancion
  rw [h]
  rfl

/-- Closed instance of C7 at the unknown genre `rap` with a default façade. -/
theorem C7_genero_invalido_testigo :
    generar_cancion gPorDefecto "rap" none 60 none none entornoListo =
      { resultado := .ok { exitoso := false, mensaje := mensajeGeneroInvalido "rap" },
        estado := gPorDefecto, efectos := [] }
    ∧ mensajeGeneroInvalido "rap" =
        "Género " ++ apostrofe ++ "rap" ++ apostrofe
          ++ " no válido. Géneros disponibles: " ++ joinSep ", " generosClaves
    ∧ generosClaves.length = 12
    ∧ joinSep ", " generosClaves =
        "pop_latino, reggaeton, balada, rock_espanol, cumbia, salsa, bachata, flamenco, mariachi, tango, urbano, folclore" :=
  C7_genero_invalido gPorDefecto "rap" none 60 none none entornoListo (by decide)

/-- A failed initialisation records exactly the single attempt effect. -/
theorem inicializar_fallo_efectos (g : GeneradorMusicaEspanol) (env : Entorno)
    (g1 : GeneradorMusicaEspanol) (efInit : List Efecto)
    (h : inicializar_pipeline g env = (false, g1, efInit)) :
    efInit = [Efecto.intentoInit] := by
  unfold inicializar_pipeline at h
  split at h
  · simp at h
  · split at h
    · simp at h
    · simp at h
      exact h.2.symm

/-- C6: the duration check of `generar_cancion` rejects exactly the durations
below 10 or above 240 (10 and 240 themselves pass): with a valid genre and
valid or defaulted lyrics, every out-of-range duration produces a failed
result carrying the duration message before any side effect, while every
in-range duration proceeds past the check to the effectful stages. -/
theorem C6_duracion (d : ℚ) (g : GeneradorMusicaEspanol) (genero : String)
    (letraOpc : Option String) (sem : Option ℤ) (nom : Option String) (env : Entorno)
    (hg : generosClaves.contains genero = true)
    (hl : (validar_letra (letraOpc.getD plantillaAmor)).1 = true) :
    ((d < 10 ∨ d > 240) →
      generar_cancion g genero letraOpc d sem nom env =
        { resultado := .ok { exitoso := false, mensaje := mensajeDuracion },
          estado := g, efectos := [] })
    ∧ (¬(d < 10 ∨ d > 240) →
        (generar_cancion g genero letraOpc d sem nom env).efectos ≠ [])
    ∧ ¬((10 : ℚ) < 10 ∨ (10 : ℚ) > 240)
    ∧ ¬((240 : ℚ) < 10 ∨ (240 : ℚ) > 240)
    ∧ contieneSub "duración".data mensajeDuracion.data = true := by
  have hv : validar_letra (letraOpc.getD plantillaAmor)
      = (true, (validar_letra (letraOpc.getD plantillaAmor)).2) := by
    conv_lhs => rw [← Prod.mk.eta (p := validar_letra (letraOpc.getD plantillaAmor))]
    rw [hl]
  refine ⟨?_, ?_, by norm_num, by norm_num, by decide⟩
  · intro hd
    unfold generar_cancion
    rw [hg, hv]
    simp [hd]
  · intro hd
    unfold generar_cancion
    rw [hg, hv, if_neg hd]
    rcases hinit : inicializar_pipeline g env with ⟨b, g1, efInit⟩
    cases b with
    | false =>
      show efInit ≠ []
      rw [inicializar_fallo_efectos g env g1 efInit hinit]
      simp
    | true =>
      rcases hmk : env.makedirs with e | u
      · show efInit ++ [Efecto.makedirs g1.config.directorio_salida] ≠ []
        simp
      · rcases hlp : env.llamadaPipeline with e | resp
        · show efectosDeLlamada g1 efInit genero sem nom ≠ []
          simp [efectosDeLlamada]
        · rcases resp with elems | tag
          · rcases elems with _ | ⟨x, xs⟩
            all_goals show efectosDeLlamada g1 efInit genero sem nom ≠ []
            all_goals simp [efectosDeLlamada]
          · show efectosDeLlamada g1 efInit genero sem nom ≠ []
            simp [efectosDeLlamada]

/-- Closed instance of C6 at duration 5 with a valid genre and lyric. -/
theorem C6_duracion_testigo :
    generar_cancion gPorDefecto "pop_latino" (some letraValida) 5 none none entornoListo =
      { resultado := .ok { exitoso := false, mensaje := mensajeDuracion },
        estado := gPorDefecto, efectos := [] }
    ∧ (generar_cancion gPorDefecto "pop_latino" (some letraValida) 60 none none
        entornoListo).efectos ≠ [] :=
  ⟨(C6_duracion 5 gPorDefecto "pop_latino" (some letraValida) none none entornoListo
      (by decide) (by decide)).1 (by decide),
   (C6_duracion 60 gPorDefecto "pop_latino" (some letraValida) none none entornoListo
      (by decide) (by decide)).2.1 (by decide)⟩

/-- The configuration built by `generar_demo`. -/
def configDemo : ConfiguracionGeneracion :=
  { duracion_segundos := 30, pasos_inferencia := 27, escala_guia := 12 }

/-- C10: `generar_demo` runs `generar_cancion` on a fresh façade whose
configuration is the defaults with duration 30, 27 inference steps and
guidance 12, ignoring entirely the configuration stored in the original façade,
while sharing its pipeline handle and initialised flag; the call passes
duration 30, no explicit lyric or seed, and the file name `demo_<genre>`. -/
theorem C10_generar_demo (cfg cfg' : ConfiguracionGeneracion) (p : Option Nat) (i : Bool)
    (genero : String) (env : Entorno) :
    generar_demo { config := cfg, pipeline := p, inicializado := i } genero env =
      generar_cancion { config := configDemo, pipeline := p, inicializado := i }
        genero none 30 none (some ("demo_" ++ genero)) env
    ∧ generar_demo { config := cfg, pipeline := p, inicializado := i } genero env =
        generar_demo { config := cfg', pipeline := p, inicializado := i } genero env
    ∧ configDemo =
        ⟨30, "wav", 27, 12, "euler", "apg", 10, 1/2, 0, 3, true, true, true,
         none, "./salidas_espanol", none, 0, true, false, false⟩ :=
  ⟨rfl, rfl, rfl⟩

/-- Whether a call returned a result value (rather than raising). -/
def retornaResultado (s : Salida) : Bool :=
  match s.resultado with
  | .ok _ => true
  | .error _ => false

/-- Whether the returned result carries a non-empty message. -/
def mensajeNoVacio (s : Salida) : Bool :=
  match s.resultado with
  | .ok r => !r.mensaje.data.isEmpty
  | .error _ => false

/-- The amended success/path invariant of a returned result: a failed result
has no audio path, a successful one carries the fixed success message. -/
def invarianteExito (s : Salida) : Bool :=
  match s.resultado with
  | .ok r => if r.exitoso then decide (r.mensaje = mensajeExito)
             else decide (r.ruta_audio = none)
  | .error _ => true

/-- The seed list carried by the first pipeline invocation among the effects,
if any invocation happened. -/
def semillasDePipeline : List Efecto → Option (Option (List ℤ))
  | [] => none
  | .invocarPipeline _ _ ss _ :: _ => some ss
  | _ :: rest => semillasDePipeline rest

theorem append_no_vacia (s t : String) (h : s.data.isEmpty = false) :
    ((s ++ t).data.isEmpty) = false := by
  rw [String.data_append]
  cases hd : s.data with
  | nil => rw [hd] at h; cases h
  | cons c l => rfl

theorem append_der_no_vacia (s t : String) (h : t.data.isEmpty = false) :
    ((s ++ t).data.isEmpty) = false := by
  rw [String.data_append]
  cases ht : t.data with
  | nil => rw [ht] at h; cases h
  | cons c l => cases s.data <;> rfl

theorem no_vacio_de_datos (M : String) (h : M.data.isEmpty = false) :
    (!M.data.isEmpty) = true := by
  rw [h]
  rfl

theorem retorna_de_mensaje (s : Salida) (h : mensajeNoVacio s = true) :
    retornaResultado s = true := by
  rcases hres : s.resultado with e | r
  · simp [mensajeNoVacio, hres] at h
  · simp [retornaResultado, hres]

theorem semillas_tras_init (ef l : List Efecto)
    (h : ef = [] ∨ ef = [Efecto.intentoInit]) :
    semillasDePipeline (ef ++ l) = semillasDePipeline l := by
  rcases h with h | h <;> subst h <;> rfl

/-- C9: the façade is the Uninitialized / Ready / InitFailed machine: in the
ready state initialisation is a no-op that keeps the same handle and
consults nothing; in the uninitialised state a raising constructor leaves
the flag false and the state unchanged (so the next call attempts again)
and makes `generar_cancion` fail with the check-your-memory message; a
successful construction stores the handle and sets the flag; and a call on
a ready façade never re-initialises and leaves the state untouched. -/
theorem C9_maquina_estados (g : GeneradorMusicaEspanol) (env : Entorno) (genero : String)
    (letraOpc : Option String) (d : ℚ) (sem : Option ℤ) (nom : Option String) :
    (g.inicializado = true → inicializar_pipeline g env = (true, g, []))
    ∧ (g.inicializado = false → ∀ e, env.initPipeline = .error e →
        inicializar_pipeline g env = (false, g, [.intentoInit]))
    ∧ (g.inicializado = false → ∀ hdl, env.initPipeline = .ok hdl →
        inicializar_pipeline g env =
          (true, { g with pipeline := some hdl, inicializado := true }, [.intentoInit]))
    ∧ (g.inicializado = false → ∀ e, env.initPipeline = .error e →
        generosClaves.contains genero = true →
        (validar_letra (letraOpc.getD plantillaAmor)).1 = true →
        ¬(d < 10 ∨ d > 240) →
        generar_cancion g genero letraOpc d sem nom env =
          { resultado := .ok { exitoso := false, mensaje := mensajeInitFalla },
            estado := g, efectos := [.intentoInit] })
    ∧ (g.inicializado = true →
        (generar_cancion g genero letraOpc d sem nom env).estado = g
        ∧ Efecto.intentoInit ∉ (generar_cancion g genero letraOpc d sem nom env).efectos)
    ∧ contieneSub "memoria".data mensajeInitFalla.data = true := by
  refine ⟨inicializar_listo g env, fun h e he => inicializar_falla g env h e he,
    fun h hdl he => inicializar_exito g env h hdl he, ?_, ?_, by decide⟩
  · intro h e he hg hl hd
    have hv : validar_letra (letraOpc.getD plantillaAmor)
        = (true, (validar_letra (letraOpc.getD plantillaAmor)).2) := by
      conv_lhs => rw [← Prod.mk.eta (p := validar_letra (letraOpc.getD plantillaAmor))]
      rw [hl]
    unfold generar_cancion
    rw [hg, hv, inicializar_falla g env h e he]
    simp [hd]
  · intro h
    unfold generar_cancion
    rw [inicializar_listo g env h]
    constructor
    · repeat' split
      all_goals simp_all
    · repeat' split
      all_goals simp_all [efectosDeLlamada]

/-- Closed instance of C9 on an uninitialised façade whose constructor
raises, and on a ready façade. -/
theorem C9_maquina_estados_testigo :
    inicializar_pipeline gPorDefecto
        { initPipeline := .error "CUDA out of memory", makedirs := .ok (),
          llamadaPipeline := .ok (.lista []) }
      = (false, gPorDefecto, [.intentoInit])
    ∧ inicializar_pipeline { config := {}, pipeline := some 7, inicializado := true }
        entornoListo
      = (true, { config := {}, pipeline := some 7, inicializado := true }, [])
    ∧ generar_cancion gPorDefecto "pop_latino" (some letraValida) 60 none none
        { initPipeline := .error "CUDA out of memory", makedirs := .ok (),
          llamadaPipeline := .ok (.lista []) }
      = { resultado := .ok { exitoso := false, mensaje := mensajeInitFalla },
          estado := gPorDefecto, efectos := [.intentoInit] } :=
  ⟨(C9_maquina_estados gPorDefecto _ "pop_latino" (some letraValida) 60 none none).2.1
      rfl "CUDA out of memory" rfl,
   (C9_maquina_estados { config := {}, pipeline := some 7, inicializado := true }
      entornoListo "pop_latino" (some letraValida) 60 none none).1 rfl,
   (C9_maquina_estados gPorDefecto _ "pop_latino" (some letraValida) 60 none none).2.2.2.1
      rfl "CUDA out of memory" rfl (by decide) (by decide) (by decide)⟩

/-- C1 counterexample: when creating the output directory raises (it sits
outside the try block), the exception escapes `generar_cancion` even though
every input is valid and the pipeline itself never raised. -/
theorem C1_contraejemplo :
    (generar_cancion gPorDefecto "pop_latino" (some letraValida) 60 none none
        { initPipeline := .ok 7, makedirs := .error "PermissionError",
          llamadaPipeline := .ok (.lista []) }).resultado
      = .error "PermissionError" := by decide

/-- C1 (amended): whenever creating the output directory does not raise,
`generar_cancion` returns a result value for every input and every behaviour
of the external pipeline — initialisation or the call itself may raise
arbitrarily — and the result always carries a non-empty message. -/
theorem C1_sin_excepciones (g : GeneradorMusicaEspanol) (genero : String)
    (letraOpc : Option String) (d : ℚ) (sem : Option ℤ) (nom : Option String)
    (env : Entorno) (hmk : env.makedirs = .ok ()) :
    retornaResultado (generar_cancion g genero letraOpc d sem nom env) = true
    ∧ mensajeNoVacio (generar_cancion g genero letraOpc d sem nom env) = true := by
  have hm : mensajeNoVacio (generar_cancion g genero letraOpc d sem nom env) = true := by
    unfold generar_cancion
    cases hgen : generosClaves.contains genero with
    | false =>
      exact no_vacio_de_datos (mensajeGeneroInvalido genero)
        (append_der_no_vacia _ (joinSep ", " generosClaves) (by decide))
    | true =>
      rcases hval : validar_letra (letraOpc.getD plantillaAmor) with ⟨bv, sv⟩
      cases bv with
      | false =>
        exact no_vacio_de_datos ("Error en la letra: " ++ sv)
          (append_no_vacia "Error en la letra: " sv (by decide))
      | true =>
        by_cases hd : d < 10 ∨ d > 240
        · rw [if_pos hd]
          exact no_vacio_de_datos mensajeDuracion (by decide)
        · rw [if_neg hd]
          rcases hinit : inicializar_pipeline g env with ⟨b, g1, efInit⟩
          cases b with
          | false => exact no_vacio_de_datos mensajeInitFalla (by decide)
          | true =>
            rw [hmk]
            rcases hlp : env.llamadaPipeline with e | resp
            · exact no_vacio_de_datos ("Error durante la generación: " ++ e)
                (append_no_vacia "Error durante la generación: " e (by decide))
            · rcases resp with elems | tag
              · rcases elems with _ | ⟨x, xs⟩
                · exact no_vacio_de_datos mensajeRespuestaInvalida (by decide)
                · exact no_vacio_de_datos mensajeExito (by decide)
              · exact no_vacio_de_datos mensajeRespuestaInvalida (by decide)
  exact ⟨retorna_de_mensaje _ hm, hm⟩

/-- Closed instance of C1 with every external operation succeeding. -/
theorem C1_sin_excepciones_testigo :
    retornaResultado (generar_cancion gPorDefecto "pop_latino" (some letraValida) 60
        none none entornoListo) = true
    ∧ mensajeNoVacio (generar_cancion gPorDefecto "pop_latino" (some letraValida) 60
        none none entornoListo) = true :=
  C1_sin_excepciones gPorDefecto "pop_latino" (some letraValida) 60 none none
    entornoListo rfl

/-- C2 counterexample: when the pipeline returns a non-empty list whose first
element is not a string, the wrapper reports success with an absent output
path, violating the claimed "success implies populated path" half. -/
theorem C2_contraejemplo :
    (generar_cancion gPorDefecto "pop_latino" (some letraValida) 60 none none
        { initPipeline := .ok 7, makedirs := .ok (),
          llamadaPipeline := .ok (.lista [.otro 0]) }).resultado
      = .ok { exitoso := true, ruta_audio := none, mensaje := mensajeExito } := by decide

/-- C2 (amended): every result returned by `generar_cancion` satisfies: if
the success flag is false the output path is absent, and if it is true the
message is the (non-empty) fixed success message; the output path on success
is populated only when the first element returned by the pipeline is a string. -/
theorem C2_invariante_resultado (g : GeneradorMusicaEspanol) (genero : String)
    (letraOpc : Option String) (d : ℚ) (sem : Option ℤ) (nom : Option String)
    (env : Entorno) :
    invarianteExito (generar_cancion g genero letraOpc d sem nom env) = true := by
  unfold generar_cancion
  repeat' split
  all_goals rfl

/-- C3 counterexample: with the explicit seed 0 and a configured seed list
`[7]`, the pipeline is handed `[7]` — the configured list — instead of the
claimed one-element list `[0]`. -/
theorem C3_contraejemplo :
    semillasDePipeline
        (generar_cancion { config := { semillas := some [7] } } "pop_latino"
            (some letraValida) 60 (some 0) none entornoListo).efectos
      = some (some [7])
    ∧ some (some [7]) ≠ some (some ([0] : List ℤ)) := by
  exact ⟨by decide, by decide⟩

/-- C3 (amended): whenever `generar_cancion` reaches the pipeline, the seed
list handed over is `[s]` for an explicitly passed non-zero seed `s`, and
the configured seed list when the seed is absent or 0 (Python truthiness
treats the explicit seed 0 like no seed). -/
theorem C3_semillas (g : GeneradorMusicaEspanol) (genero : String)
    (letraOpc : Option String) (d : ℚ) (sem : Option ℤ) (nom : Option String)
    (env : Entorno) :
    (semillasDePipeline (generar_cancion g genero letraOpc d sem nom env).efectos = none
      ∨ semillasDePipeline (generar_cancion g genero letraOpc d sem nom env).efectos
          = some (resolverSemillas sem g.config.semillas))
    ∧ (∀ s : ℤ, resolverSemillas (some s) g.config.semillas
        = if s = 0 then g.config.semillas else some [s])
    ∧ resolverSemillas none g.config.semillas = g.config.semillas := by
  refine ⟨?_, fun s => rfl, rfl⟩
  rcases hinit : inicializar_pipeline g env with ⟨b, g1, efInit⟩
  have hef : efInit = [] ∨ efInit = [Efecto.intentoInit] := by
    have h2 := inicializar_efectos g env
    rw [hinit] at h2
    exact h2
  have hcf : g1.config = g.config := by
    have h2 := inicializar_config g env
    rw [hinit] at h2
    exact h2
  unfold generar_cancion
  cases hgen : generosClaves.contains genero with
  | false => exact Or.inl rfl
  | true =>
    rcases hval : validar_letra (letraOpc.getD plantillaAmor) with ⟨bv, sv⟩
    cases bv with
    | false => exact Or.inl rfl
    | true =>
      by_cases hd : d < 10 ∨ d > 240
      · rw [if_pos hd]
        exact Or.inl rfl
      · rw [if_neg hd, hinit]
        cases b with
        | false =>
          rcases hef with hef | hef <;> subst hef <;> exact Or.inl rfl
        | true =>
          rcases hmk : env.makedirs with e | u
          · rcases hef with hef | hef <;> subst hef <;> exact Or.inl rfl
          · rcases hlp : env.llamadaPipeline with e | resp
            · refine Or.inr ?_
              rcases hef with hef | hef <;> subst hef <;>
                simp [efectosDeLlamada, semillasDePipeline, hcf]
            · rcases resp with elems | tag
              · rcases elems with _ | ⟨x, xs⟩
                all_goals refine Or.inr ?_
                all_goals rcases hef with hef | hef <;> subst hef <;>
                  simp [efectosDeLlamada, semillasDePipeline, hcf]
              · refine Or.inr ?_
                rcases hef with hef | hef <;> subst hef <;>
                  simp [efectosDeLlamada, semillasDePipeline, hcf]

end PocEspanol
